import Mathlib

/-!
# TreadSight core — shallow embedding and verification

This file embeds the deterministic core of the TreadSight repository
(`src/lib/healthScore.ts`, `src/lib/weatherRisk.ts`, `src/lib/constants.ts`,
the wear model in `src/lib/wearModel.ts`, the image-quality assessor, the
`useTimeTravelState` hook and the procedural deterioration pipeline) in Lean 4,
and proves or refutes the frozen specification claims about them.

Modelling conventions:
* JavaScript `number` arithmetic is modelled over `ℚ`.  All constants in the
  source are exact decimal literals, so the rational embedding is exact for
  the arithmetic the claims are about.  Where the source computes transcendental
  functions (`Math.sqrt`, `Math.cos`, `Math.sin`, `Math.atan2`, `Math.exp`,
  `Math.PI`) the embedding is parameterised over a fixed oracle structure,
  reflecting that each of those is a fixed deterministic pure function.
* `Math.round x` is `round x` (Mathlib's `round` equals `⌊x + 1/2⌋`, which is
  exactly the ECMAScript `Math.round`).
* `Date` values produced by `addMonths(now, m)` are modelled as the integer
  month offset `round m` from the fixed base date `now`; the degenerate-branch
  `setFullYear(+10)` is the offset `120` (ten years = 120 calendar months).
* For the image-quality assessor, the JavaScript divisions can produce
  `NaN`/`Infinity`; there the embedding uses an explicit `JsNum` type with
  IEEE-style special values, mirroring the ECMAScript semantics of the
  operations the function performs.
-/

namespace TreadSight

/-- `Math.round` of ECMAScript on a rational: `⌊x + 1/2⌋`, identical to
Mathlib's `round`.  Helper monotonicity lemma used throughout. -/
theorem round_mono_rat {x y : ℚ} (h : x ≤ y) : round x ≤ round y := by
  rw [round_eq, round_eq]
  exact Int.floor_le_floor (by linarith)

-- ── Enumerations (src/types/index.ts) ───────────────────────────────

/-- `RiskLevel` — ordered enum `Safe < Monitor < Plan Soon < Replace Now`. -/
inductive RiskLevel where
  | safe
  | monitor
  | planSoon
  | replaceNow
deriving DecidableEq, Repr

/-- Index of a risk level in the ordered scale `RISK_ORDER`
(`['Safe', 'Monitor', 'Plan Soon', 'Replace Now']`). -/
def riskIndex : RiskLevel → ℕ
  | .safe => 0
  | .monitor => 1
  | .planSoon => 2
  | .replaceNow => 3

/-- Inverse of `riskIndex`: `RISK_ORDER[i]` for `i ≤ 3`. -/
def riskOfIndex : ℕ → RiskLevel
  | 0 => .safe
  | 1 => .monitor
  | 2 => .planSoon
  | _ => .replaceNow

/-- `WeatherMode` — `'dry' | 'wet' | 'snow'`. -/
inductive WeatherMode where
  | dry
  | wet
  | snow
deriving DecidableEq, Repr

-- ── Constants (src/lib/constants.ts) ────────────────────────────────

/-- `WEATHER_RISK_MULTIPLIERS` from `constants.ts`. -/
def WEATHER_RISK_MULTIPLIERS : WeatherMode → ℚ
  | .dry => 1.0
  | .wet => 1.35
  | .snow => 1.7

/-- `WEATHER_DEPTH_THRESHOLDS` from `constants.ts` (warning, critical). -/
def WEATHER_DEPTH_THRESHOLDS : WeatherMode → ℚ × ℚ
  | .dry => (4, 2)
  | .wet => (5, 3)
  | .snow => (6, 4)

/-- `BASE_WEAR_RATE_PER_1000_MILES = 0.14` (32nds per 1000 miles). -/
def BASE_WEAR_RATE_PER_1000_MILES : ℚ := 0.14

/-- `WET_TRACTION_DROP_DEPTH = 4` (32nds). -/
def WET_TRACTION_DROP_DEPTH : ℚ := 4

/-- `LEGAL_MINIMUM_DEPTH = 2` (32nds). -/
def LEGAL_MINIMUM_DEPTH : ℚ := 2

-- ── Health score (src/lib/healthScore.ts) ───────────────────────────

/-- `calculateDepthScore`: linear map of clamped depth onto `[0,100]`. -/
def calculateDepthScore (depth32nds : ℚ) : ℚ :=
  (max 0 (min 10 depth32nds)) / 10 * 100

/-- `scoreFromDepth`: `Math.max(0, Math.min(100, Math.round(calculateDepthScore d)))`. -/
def scoreFromDepth (depth32nds : ℚ) : ℤ :=
  max 0 (min 100 (round (calculateDepthScore depth32nds)))

/-- `getRiskLevel` / `getRiskLevelFromScore`: score thresholds
`≥70 → Safe`, `≥50 → Monitor`, `>25 → Plan Soon`, else `Replace Now`. -/
def getRiskLevelFromScore (score : ℤ) : RiskLevel :=
  if score ≥ 70 then .safe
  else if score ≥ 50 then .monitor
  else if score > 25 then .planSoon
  else .replaceNow

-- ── Weather risk (src/lib/weatherRisk.ts) ───────────────────────────

/-- Result record of `calculateWeatherRisk`. -/
structure WeatherRiskResult where
  adjustedRiskLevel : RiskLevel
  riskModifier : ℚ
  description : String
deriving DecidableEq, Repr

/-- `RISK_ORDER` from `weatherRisk.ts`. -/
def RISK_ORDER : List RiskLevel := [.safe, .monitor, .planSoon, .replaceNow]

/-- `escalateRisk(current, steps)`:
`RISK_ORDER[Math.min(RISK_ODER.length - 1, indexOf(current) + steps + 1)]`. -/
def escalateRisk (current : RiskLevel) (steps : ℕ) : RiskLevel :=
  (RISK_ORDER.getD (min (RISK_ORDER.length - 1) (riskIndex current + steps + 1)) .replaceNow)

/-- `calculateWeatherRisk(depth32nds, baseRiskLevel, weatherMode)`. -/
def calculateWeatherRisk (depth32nds : ℚ) (baseRiskLevel : RiskLevel)
    (weatherMode : WeatherMode) : WeatherRiskResult :=
  let multiplier := WEATHER_RISK_MULTIPLIERS weatherMode
  let thresholds := WEATHER_DEPTH_THRESHOLDS weatherMode
  if weatherMode = .dry then
    { adjustedRiskLevel := baseRiskLevel, riskModifier := multiplier,
      description := "Standard dry conditions - normal risk assessment." }
  else if depth32nds ≤ thresholds.2 then
    { adjustedRiskLevel := .replaceNow, riskModifier := multiplier,
      description := if weatherMode = .wet
        then "Dangerously low tread for wet conditions. Hydroplaning risk is high."
        else "Critically insufficient tread for snow. Loss of control likely on ice or packed snow." }
  else if depth32nds ≤ thresholds.1 then
    { adjustedRiskLevel := escalateRisk baseRiskLevel 1, riskModifier := multiplier,
      description := if weatherMode = .wet
        then "Reduced wet traction. Stopping distances increase significantly."
        else "Snow traction severely compromised. Consider winter tires or replacement." }
  else if depth32nds ≤ thresholds.1 + 1 then
    { adjustedRiskLevel := escalateRisk baseRiskLevel 0, riskModifier := multiplier,
      description := if weatherMode = .wet
        then "Wet performance starting to decline. Monitor closely."
        else "Approaching snow safety limits. Plan for replacement soon." }
  else
    { adjustedRiskLevel := baseRiskLevel, riskModifier := multiplier,
      description := if weatherMode = .wet
        then "Good tread depth for wet conditions."
        else "Adequate tread for light snow. Deep snow may require dedicated winter tires." }

/-- `adjustRemainingMonths(baseMonths, weatherMode)`:
`Math.max(0, Math.round(baseMonths / multiplier))`. -/
def adjustRemainingMonths (baseMonths : ℤ) (weatherMode : WeatherMode) : ℤ :=
  max 0 (round ((baseMonths : ℚ) / WEATHER_RISK_MULTIPLIERS weatherMode))

-- ── Basic facts about the risk scale ────────────────────────────────

/-- Every risk index is at most 3 (the index of `Replace Now`). -/
theorem riskIndex_le_three (r : RiskLevel) : riskIndex r ≤ 3 := by
  cases r <;> simp [riskIndex]

/-- Indexing `RISK_ORDER` at a position `≤ 3` inverts `riskIndex`. -/
theorem riskIndex_RISK_ORDER_getD (k : ℕ) (hk : k ≤ 3) :
    riskIndex (RISK_ORDER.getD k .replaceNow) = k := by
  interval_cases k <;> rfl

/-- `escalateRisk` moves the index to `min 3 (index + steps + 1)`. -/
theorem riskIndex_escalateRisk (b : RiskLevel) (s : ℕ) :
    riskIndex (escalateRisk b s) = min 3 (riskIndex b + s + 1) := by
  have h : RISK_ORDER.length - 1 = 3 := rfl
  unfold escalateRisk
  rw [h, riskIndex_RISK_ORDER_getD _ (min_le_left _ _)]

-- ── Claim theorems: C9, C4 ──────────────────────────────────────────

/-- **C9**: for all `d ∈ [0,10]`,
`scoreFromDepth d = clamp (round (d/10·100)) 0 100`; moreover
`scoreFromDepth 10 = 100`, `scoreFromDepth 0 = 0` and `scoreFromDepth 5 = 50`. -/
theorem C9_scoreFromDepth_spec (d : ℚ) (h0 : 0 ≤ d) (h10 : d ≤ 10) :
    scoreFromDepth d = max 0 (min 100 (round (d / 10 * 100))) ∧
    scoreFromDepth 10 = 100 ∧ scoreFromDepth 0 = 0 ∧ scoreFromDepth 5 = 50 := by
  refine ⟨?_, ?_, ?_, ?_⟩
  · unfold scoreFromDepth calculateDepthScore
    rw [min_eq_right h10, max_eq_right h0]
  all_goals norm_num [scoreFromDepth, calculateDepthScore, round_eq]

/-- Witness for C9 at the concrete depth `d = 7`. -/
theorem C9_scoreFromDepth_spec_witness :
    scoreFromDepth 7 = max 0 (min 100 (round ((7 : ℚ) / 10 * 100))) ∧
    scoreFromDepth 10 = 100 ∧ scoreFromDepth 0 = 0 ∧ scoreFromDepth 5 = 50 :=
  C9_scoreFromDepth_spec 7 (by norm_num) (by norm_num)

/-- **C4**: `calculateWeatherRisk` never lowers the risk level
(`riskIndex base ≤ riskIndex adjusted`), never exceeds `Replace Now`
(`riskIndex adjusted ≤ 3`), and dry mode is a pass-through returning the base
risk with `riskModifier = 1.0`. -/
theorem C4_weather_escalation_monotone_bounded (depth32nds : ℚ)
    (baseRiskLevel : RiskLevel) (weatherMode : WeatherMode) :
    riskIndex baseRiskLevel ≤
      riskIndex (calculateWeatherRisk depth32nds baseRiskLevel weatherMode).adjustedRiskLevel ∧
    riskIndex (calculateWeatherRisk depth32nds baseRiskLevel weatherMode).adjustedRiskLevel ≤ 3 ∧
    (calculateWeatherRisk depth32nds baseRiskLevel .dry).adjustedRiskLevel = baseRiskLevel ∧
    (calculateWeatherRisk depth32nds baseRiskLevel .dry).riskModifier = 1.0 := by
  have hb3 := riskIndex_le_three baseRiskLevel
  refine ⟨?_, ?_, by simp [calculateWeatherRisk],
    by simp [calculateWeatherRisk, WEATHER_RISK_MULTIPLIERS]⟩
  · cases weatherMode <;>
      simp [calculateWeatherRisk, riskIndex_le_three] <;>
      split_ifs <;>
      simp only [riskIndex_escalateRisk, show riskIndex .replaceNow = 3 from rfl] <;>
      omega
  · cases weatherMode <;>
      simp [calculateWeatherRisk, riskIndex_le_three, riskIndex_escalateRisk]

-- ── Wear model (src/lib/wearModel.ts) ───────────────────────────────

/-- `DepthRange` — `{min, max}` in 32nds of an inch. -/
structure DepthRange where
  min : ℚ
  max : ℚ
deriving DecidableEq, Repr

/-- Input record of `predictWearTimeline`.  At the JavaScript runtime the
`climate`/`rotation`/`drivingStyle` fields are plain strings looked up in the
open string-keyed `WEAR_MODIFIERS` maps, so they are embedded as `String`. -/
structure WearPredictionInput where
  depthRange : DepthRange
  milesPerYear : ℚ
  climate : String
  rotation : String
  drivingStyle : String
deriving DecidableEq, Repr

/-- `WEAR_MODIFIERS.climate` from `constants.ts` as the string-keyed map it is
at runtime: `undefined` (here `none`) for an unrecognized key. -/
def WEAR_MODIFIERS_climate (s : String) : Option ℚ :=
  if s = "cold" then some 1.05
  else if s = "moderate" then some 1.0
  else if s = "hot" then some 1.15
  else if s = "neutral" then some 1.0
  else none

/-- `WEAR_MODIFIERS.rotation` from `constants.ts`. -/
def WEAR_MODIFIERS_rotation (s : String) : Option ℚ :=
  if s = "normal" then some 1.0
  else if s = "skip-rotations" then some 1.15
  else none

/-- `WEAR_MODIFIERS.driving` from `constants.ts`. -/
def WEAR_MODIFIERS_driving (s : String) : Option ℚ :=
  if s = "normal" then some 1.0
  else if s = "aggressive" then some 1.10
  else none

/-- The local `currentDepth` of `predictWearTimeline`: midpoint of the range. -/
def currentDepthOf (input : WearPredictionInput) : ℚ :=
  (input.depthRange.min + input.depthRange.max) / 2

/-- The local `adjustedWearRate` of `predictWearTimeline`:
`BASE_WEAR_RATE_PER_1000_MILES * climateModifier * rotationModifier *
drivingModifier`, each modifier defaulting to `1.0` via `?? 1.0`. -/
def adjustedWearRate (input : WearPredictionInput) : ℚ :=
  BASE_WEAR_RATE_PER_1000_MILES *
    ((WEAR_MODIFIERS_climate input.climate).getD 1.0) *
    ((WEAR_MODIFIERS_rotation input.rotation).getD 1.0) *
    ((WEAR_MODIFIERS_driving input.drivingStyle).getD 1.0)

/-- The local `depthLossPerMonth` of `predictWearTimeline`:
`(milesPerYear / 12 / 1000) * adjustedWearRate`. -/
def depthLossPerMonth (input : WearPredictionInput) : ℚ :=
  (input.milesPerYear / 12 / 1000) * adjustedWearRate input

/-- `calculateConfidenceBand(depth, milesPerYear)` from `wearModel.ts`. -/
def calculateConfidenceBand (depth : ℚ) (milesPerYear : ℚ) : ℚ :=
  let band : ℚ := 0.175
  let band := if depth < 3 then band + 0.025 else band
  let band := if milesPerYear > 18000 then band + 0.015 else band
  let band := if milesPerYear < 6000 then band + 0.01 else band
  min 0.20 (max 0.15 band)

/-- Result record of `predictWearTimeline`.  The three `Date` fields are
embedded as integer month offsets from the fixed base date `now`
(`addMonths(now, m)` ↦ `round m`; the sentinel `setFullYear(+10)` ↦ `120`). -/
structure WearPrediction where
  currentDepth32nds : ℚ
  wearRatePer1000Miles : ℚ
  wetTractionDropDate : ℤ
  legalMinimumDate : ℤ
  tireDeadDate : ℤ
  remainingMonths : ℤ
  confidenceBand : ℚ
deriving DecidableEq, Repr

/-- `predictWearTimeline(input)` from `wearModel.ts`.  The source also
computes a `monthsToDeadRaw` (`currentDepth / depthLossPerMonth`) and
discards it: `monthsToDead = monthsToLegal`. -/
def predictWearTimeline (input : WearPredictionInput) : WearPrediction :=
  if depthLossPerMonth input ≤ 0 then
    { currentDepth32nds := currentDepthOf input,
      wearRatePer1000Miles := adjustedWearRate input,
      wetTractionDropDate := 120,
      legalMinimumDate := 120,
      tireDeadDate := 120,
      remainingMonths := 120,
      confidenceBand := 0.20 }
  else
    let monthsToWetDrop :=
      max 0 ((currentDepthOf input - WET_TRACTION_DROP_DEPTH) / depthLossPerMonth input)
    let monthsToLegal :=
      max 0 ((currentDepthOf input - LEGAL_MINIMUM_DEPTH) / depthLossPerMonth input)
    let monthsToDead := monthsToLegal
    { currentDepth32nds := currentDepthOf input,
      wearRatePer1000Miles := adjustedWearRate input,
      wetTractionDropDate := round monthsToWetDrop,
      legalMinimumDate := round monthsToLegal,
      tireDeadDate := round monthsToDead,
      remainingMonths := round monthsToDead,
      confidenceBand := calculateConfidenceBand (currentDepthOf input) input.milesPerYear }

/-- `depthAtTime(currentDepth, t, totalMonths, wearRatePerMonth)`:
`Math.max(0, Math.round(depth * 100) / 100)` after linear extrapolation. -/
def depthAtTime (currentDepth t totalMonths wearRatePerMonth : ℚ) : ℚ :=
  let monthsElapsed := t * totalMonths
  let depth := currentDepth - monthsElapsed * wearRatePerMonth
  max 0 ((round (depth * 100) : ℚ) / 100)

/-- `dateAtTime(t, totalMonths)` as a month offset: `round (t * totalMonths)`. -/
def dateAtTime (t totalMonths : ℚ) : ℤ :=
  round (t * totalMonths)

/-- `getMonthlyWearRate(wearRatePer1000Miles, milesPerYear)`. -/
def getMonthlyWearRate (wearRatePer1000Miles milesPerYear : ℚ) : ℚ :=
  (milesPerYear / 12 / 1000) * wearRatePer1000Miles

-- ── Claim theorems: C1, C8, C10 ─────────────────────────────────────

/-- **C1**: for every `WearPredictionInput`, the prediction satisfies
`wetTractionDropDate ≤ legalMinimumDate` and `legalMinimumDate = tireDeadDate`
(the tire is dead exactly at legal minimum), including on the
degenerate-sentinel branch. -/
theorem C1_wear_dates_ordered (input : WearPredictionInput) :
    (predictWearTimeline input).wetTractionDropDate ≤
      (predictWearTimeline input).legalMinimumDate ∧
    (predictWearTimeline input).legalMinimumDate =
      (predictWearTimeline input).tireDeadDate := by
  unfold predictWearTimeline
  by_cases h : depthLossPerMonth input ≤ 0
  · rw [if_pos h]
    exact ⟨le_refl _, rfl⟩
  · rw [if_neg h]
    push_neg at h
    refine ⟨?_, rfl⟩
    dsimp only
    apply round_mono_rat
    apply max_le_max (le_refl 0)
    rw [div_le_div_iff_of_pos_right h]
    unfold WET_TRACTION_DROP_DEPTH LEGAL_MINIMUM_DEPTH
    linarith

/-- **C8**: whenever the computed monthly depth loss is `≤ 0`,
`predictWearTimeline` returns the sentinel: all three dates ten years
(120 months) out, `remainingMonths = 120`, `confidenceBand = 0.20`, and
`currentDepth32nds` still the midpoint of the depth range. -/
theorem C8_degenerate_sentinel (input : WearPredictionInput)
    (h : depthLossPerMonth input ≤ 0) :
    predictWearTimeline input =
      { currentDepth32nds := (input.depthRange.min + input.depthRange.max) / 2,
        wearRatePer1000Miles := adjustedWearRate input,
        wetTractionDropDate := 120,
        legalMinimumDate := 120,
        tireDeadDate := 120,
        remainingMonths := 120,
        confidenceBand := 0.20 } := by
  unfold predictWearTimeline
  rw [if_pos h]
  rfl

/-- Witness for C8: zero miles per year gives zero monthly depth loss. -/
theorem C8_degenerate_sentinel_witness :
    depthLossPerMonth ⟨⟨8, 10⟩, 0, "neutral", "normal", "normal"⟩ ≤ 0 ∧
    predictWearTimeline ⟨⟨8, 10⟩, 0, "neutral", "normal", "normal"⟩ =
      { currentDepth32nds := ((8 : ℚ) + 10) / 2,
        wearRatePer1000Miles := adjustedWearRate ⟨⟨8, 10⟩, 0, "neutral", "normal", "normal"⟩,
        wetTractionDropDate := 120,
        legalMinimumDate := 120,
        tireDeadDate := 120,
        remainingMonths := 120,
        confidenceBand := 0.20 } :=
  ⟨by norm_num [depthLossPerMonth, adjustedWearRate],
   C8_degenerate_sentinel _ (by norm_num [depthLossPerMonth, adjustedWearRate])⟩

-- ── Claim C7: unrecognized enum values ──────────────────────────────

/-- `predictWearTimeline` reads its input only through the depth midpoint,
the adjusted wear rate, and `milesPerYear`. -/
theorem predictWearTimeline_congr (i j : WearPredictionInput)
    (hd : currentDepthOf i = currentDepthOf j)
    (ha : adjustedWearRate i = adjustedWearRate j)
    (hm : i.milesPerYear = j.milesPerYear) :
    predictWearTimeline i = predictWearTimeline j := by
  have hL : depthLossPerMonth i = depthLossPerMonth j := by
    unfold depthLossPerMonth
    rw [ha, hm]
  unfold predictWearTimeline
  rw [hL, hd, ha, hm]

/-- The `wearRatePer1000Miles` field is the adjusted wear rate on both
branches of `predictWearTimeline`. -/
theorem predictWearTimeline_wearRate (input : WearPredictionInput) :
    (predictWearTimeline input).wearRatePer1000Miles = adjustedWearRate input := by
  unfold predictWearTimeline
  split <;> rfl

/-- **C7 counterexample**: the unrecognized climate string `"tropical"` is not
rejected: `predictWearTimeline` silently defaults its modifier to `1.0`
(the `?? 1.0` fallback), producing exactly the result of a `"neutral"`
climate with the unmodified base wear rate. -/
theorem C7_unknown_enum_counterexample :
    WEAR_MODIFIERS_climate "tropical" = none ∧
    predictWearTimeline ⟨⟨8, 10⟩, 12000, "tropical", "normal", "normal"⟩ =
      predictWearTimeline ⟨⟨8, 10⟩, 12000, "neutral", "normal", "normal"⟩ ∧
    (predictWearTimeline ⟨⟨8, 10⟩, 12000, "tropical", "normal", "normal"⟩).wearRatePer1000Miles =
      BASE_WEAR_RATE_PER_1000_MILES := by
  refine ⟨rfl, ?_, ?_⟩
  · exact predictWearTimeline_congr _ _ rfl rfl rfl
  · rw [predictWearTimeline_wearRate]
    show BASE_WEAR_RATE_PER_1000_MILES * 1.0 * 1.0 * 1.0 = BASE_WEAR_RATE_PER_1000_MILES
    norm_num

/-- **C7 amended**: for an unrecognized `climate`, `rotation` or
`drivingStyle` value, `predictWearTimeline` does not reject; each `?? 1.0`
fallback silently applies modifier `1.0`, so the result coincides with the
corresponding recognized modifier-1.0 value (`"neutral"` / `"normal"`). -/
theorem C7_unknown_enum_amended (i : WearPredictionInput) :
    (WEAR_MODIFIERS_climate i.climate = none →
      predictWearTimeline i = predictWearTimeline { i with climate := "neutral" }) ∧
    (WEAR_MODIFIERS_rotation i.rotation = none →
      predictWearTimeline i = predictWearTimeline { i with rotation := "normal" }) ∧
    (WEAR_MODIFIERS_driving i.drivingStyle = none →
      predictWearTimeline i = predictWearTimeline { i with drivingStyle := "normal" }) := by
  refine ⟨fun h => ?_, fun h => ?_, fun h => ?_⟩
  · refine predictWearTimeline_congr _ _ rfl ?_ rfl
    unfold adjustedWearRate
    rw [h]
    rfl
  · refine predictWearTimeline_congr _ _ rfl ?_ rfl
    unfold adjustedWearRate
    rw [h]
    rfl
  · refine predictWearTimeline_congr _ _ rfl ?_ rfl
    unfold adjustedWearRate
    rw [h]
    rfl

/-- Witness for C7 (amended) at the unrecognized climate `"desert"`. -/
theorem C7_unknown_enum_amended_witness :
    WEAR_MODIFIERS_climate "desert" = none ∧
    predictWearTimeline ⟨⟨6, 8⟩, 12000, "desert", "normal", "normal"⟩ =
      predictWearTimeline ⟨⟨6, 8⟩, 12000, "neutral", "normal", "normal"⟩ :=
  ⟨rfl,
   (C7_unknown_enum_amended ⟨⟨6, 8⟩, 12000, "desert", "normal", "normal"⟩).1 rfl⟩

/-- **C10**: `depthAtTime` is monotonically nonincreasing in `t` when
`currentDepth ≥ 0`, `totalMonths ≥ 0` and `wearRatePerMonth ≥ 0`. -/
theorem C10_depthAtTime_nonincreasing (currentDepth t1 t2 totalMonths wearRatePerMonth : ℚ)
    (_hd : 0 ≤ currentDepth) (hm : 0 ≤ totalMonths) (hr : 0 ≤ wearRatePerMonth)
    (ht : t1 ≤ t2) :
    depthAtTime currentDepth t2 totalMonths wearRatePerMonth ≤
      depthAtTime currentDepth t1 totalMonths wearRatePerMonth := by
  unfold depthAtTime
  dsimp only
  apply max_le_max (le_refl 0)
  have h1 : t1 * totalMonths * wearRatePerMonth ≤ t2 * totalMonths * wearRatePerMonth :=
    mul_le_mul_of_nonneg_right (mul_le_mul_of_nonneg_right ht hm) hr
  have h2 := round_mono_rat (show
      (currentDepth - t2 * totalMonths * wearRatePerMonth) * 100 ≤
      (currentDepth - t1 * totalMonths * wearRatePerMonth) * 100 by nlinarith)
  have h3 : ((round ((currentDepth - t2 * totalMonths * wearRatePerMonth) * 100) : ℤ) : ℚ) ≤
      ((round ((currentDepth - t1 * totalMonths * wearRatePerMonth) * 100) : ℤ) : ℚ) := by
    exact_mod_cast h2
  exact div_le_div_of_nonneg_right h3 (by norm_num) |>.trans (le_refl _)

/-- Witness for C10 at `currentDepth = 8`, `t1 = 0`, `t2 = 1`,
`totalMonths = 36`, `wearRatePerMonth = 0.2`. -/
theorem C10_depthAtTime_nonincreasing_witness :
    (0 : ℚ) ≤ 8 ∧ (0 : ℚ) ≤ 36 ∧ (0 : ℚ) ≤ 0.2 ∧ (0 : ℚ) ≤ 1 ∧
    depthAtTime 8 1 36 0.2 ≤ depthAtTime 8 0 36 0.2 :=
  ⟨by norm_num, by norm_num, by norm_num, by norm_num,
   C10_depthAtTime_nonincreasing 8 0 1 36 0.2 (by norm_num) (by norm_num)
     (by norm_num) (by norm_num)⟩

-- ── Time-Travel State Engine (useTimeTravelState) ───────────────────

/-- `TimeTravelState` — fully derived state at a normalized time `t`.
`currentDate` is the month offset from `now` (see the `Date` convention). -/
structure TimeTravelState where
  t : ℚ
  currentDate : ℤ
  currentDepth : ℚ
  currentScore : ℤ
  currentRisk : RiskLevel
  weatherMode : WeatherMode
  skipRotations : Bool
  aggressiveDriving : Bool
deriving DecidableEq, Repr

/-- The hook's `adjustedWearRate` memo: the stored wear rate times
`WEAR_MODIFIERS.rotation['skip-rotations']` (1.15) and
`WEAR_MODIFIERS.driving.aggressive` (1.10) when the toggles are on. -/
def timeTravelAdjustedWearRate (wp : WearPrediction)
    (skipRotations aggressiveDriving : Bool) : ℚ :=
  let rate := wp.wearRatePer1000Miles
  let rate := if skipRotations then rate * 1.15 else rate
  let rate := if aggressiveDriving then rate * 1.10 else rate
  rate

/-- The hook's `totalMonths` memo: `remainingMonths` deflated by the driving
toggles (rounded) and then by the weather multiplier via
`adjustRemainingMonths`. -/
def timeTravelTotalMonths (wp : WearPrediction)
    (skipRotations aggressiveDriving : Bool) (weatherMode : WeatherMode) : ℤ :=
  let baseMonths := wp.remainingMonths
  let adjustedForDriving :=
    if skipRotations || aggressiveDriving then
      round ((baseMonths : ℚ) /
        ((if skipRotations then (1.15 : ℚ) else 1) *
          (if aggressiveDriving then (1.10 : ℚ) else 1)))
    else baseMonths
  adjustRemainingMonths adjustedForDriving weatherMode

/-- The state computed by `useTimeTravelState` for a non-null analysis,
as a pure function of `(wearPrediction, t, weatherMode, toggles)`.  The hook
passes `12000` to `getMonthlyWearRate` (the constant in the source). -/
def useTimeTravelState (wp : WearPrediction) (t : ℚ) (weatherMode : WeatherMode)
    (skipRotations aggressiveDriving : Bool) : TimeTravelState :=
  let adjWearRate := timeTravelAdjustedWearRate wp skipRotations aggressiveDriving
  let totalMonths := timeTravelTotalMonths wp skipRotations aggressiveDriving weatherMode
  let monthlyWearRate := getMonthlyWearRate adjWearRate 12000
  let currentDepth := depthAtTime wp.currentDepth32nds t (totalMonths : ℚ) monthlyWearRate
  let currentScore := scoreFromDepth currentDepth
  let baseRisk := getRiskLevelFromScore currentScore
  let weatherResult := calculateWeatherRisk currentDepth baseRisk weatherMode
  { t := t,
    currentDate := dateAtTime t (totalMonths : ℚ),
    currentDepth := currentDepth,
    currentScore := currentScore,
    currentRisk := weatherResult.adjustedRiskLevel,
    weatherMode := weatherMode,
    skipRotations := skipRotations,
    aggressiveDriving := aggressiveDriving }

-- ── Claim C2: idempotence at t = 0 in dry mode ──────────────────────

/-- **C2**: at `t = 0` with `weatherMode = 'dry'`, the Time-Travel state
reproduces `currentDepth = currentDepth32nds` and `currentRisk` equal to the
un-escalated base risk from the score thresholds, for any toggle settings.
The hypotheses state that the stored depth is nonnegative and is stable under
the engine's 2-decimal rounding (`Math.round(d*100)/100 = d`), which holds
for every depth the classifier can produce (bucket midpoints `1,3,5,7,9`). -/
theorem C2_time_travel_t0_dry (wp : WearPrediction) (skip agg : Bool)
    (h0 : 0 ≤ wp.currentDepth32nds)
    (h2 : ((round (wp.currentDepth32nds * 100) : ℤ) : ℚ) / 100 = wp.currentDepth32nds) :
    (useTimeTravelState wp 0 .dry skip agg).currentDepth = wp.currentDepth32nds ∧
    (useTimeTravelState wp 0 .dry skip agg).currentRisk =
      getRiskLevelFromScore (scoreFromDepth wp.currentDepth32nds) := by
  have hdepth : ∀ tm r : ℚ, depthAtTime wp.currentDepth32nds 0 tm r = wp.currentDepth32nds := by
    intro tm r
    unfold depthAtTime
    dsimp only
    rw [zero_mul, zero_mul, sub_zero, h2]
    exact max_eq_right h0
  constructor
  · exact hdepth _ _
  · simp only [useTimeTravelState]
    rw [hdepth]
    simp [calculateWeatherRisk]

/-- Witness for C2 at the concrete `WearPrediction` produced for a NEW-bucket
tire (`currentDepth32nds = 9`). -/
theorem C2_time_travel_t0_dry_witness :
    (0 : ℚ) ≤ (9 : ℚ) ∧
    ((round ((9 : ℚ) * 100) : ℤ) : ℚ) / 100 = (9 : ℚ) ∧
    (useTimeTravelState ⟨9, 0.14, 50, 50, 50, 50, 0.175⟩ 0 .dry false false).currentDepth = 9 ∧
    (useTimeTravelState ⟨9, 0.14, 50, 50, 50, 50, 0.175⟩ 0 .dry false false).currentRisk =
      getRiskLevelFromScore (scoreFromDepth 9) :=
  ⟨by norm_num, by norm_num [round_eq],
   (C2_time_travel_t0_dry ⟨9, 0.14, 50, 50, 50, 50, 0.175⟩ false false
     (by norm_num) (by norm_num [round_eq])).1,
   (C2_time_travel_t0_dry ⟨9, 0.14, 50, 50, 50, 50, 0.175⟩ false false
     (by norm_num) (by norm_num [round_eq])).2⟩

-- ── Claim C3: monotonicity of remaining months ──────────────────────

/-- Projection of `remainingMonths` through the two branches. -/
theorem predictWearTimeline_remainingMonths (input : WearPredictionInput) :
    (predictWearTimeline input).remainingMonths =
      if depthLossPerMonth input ≤ 0 then 120
      else round (max 0 ((currentDepthOf input - LEGAL_MINIMUM_DEPTH) /
        depthLossPerMonth input)) := by
  unfold predictWearTimeline
  split <;> rfl

/-- Each `?? 1.0`-defaulted climate modifier is positive. -/
theorem WEAR_MODIFIERS_climate_getD_pos (s : String) :
    0 < (WEAR_MODIFIERS_climate s).getD 1.0 := by
  unfold WEAR_MODIFIERS_climate
  split_ifs <;> norm_num

/-- Each `?? 1.0`-defaulted rotation modifier is positive. -/
theorem WEAR_MODIFIERS_rotation_getD_pos (s : String) :
    0 < (WEAR_MODIFIERS_rotation s).getD 1.0 := by
  unfold WEAR_MODIFIERS_rotation
  split_ifs <;> norm_num

/-- Each `?? 1.0`-defaulted driving modifier is positive. -/
theorem WEAR_MODIFIERS_driving_getD_pos (s : String) :
    0 < (WEAR_MODIFIERS_driving s).getD 1.0 := by
  unfold WEAR_MODIFIERS_driving
  split_ifs <;> norm_num

/-- The adjusted wear rate is always positive. -/
theorem adjustedWearRate_pos (i : WearPredictionInput) : 0 < adjustedWearRate i := by
  unfold adjustedWearRate
  exact mul_pos (mul_pos (mul_pos (by norm_num [BASE_WEAR_RATE_PER_1000_MILES])
    (WEAR_MODIFIERS_climate_getD_pos i.climate))
    (WEAR_MODIFIERS_rotation_getD_pos i.rotation))
    (WEAR_MODIFIERS_driving_getD_pos i.drivingStyle)

/-- Positive mileage gives positive monthly depth loss. -/
theorem depthLossPerMonth_pos (i : WearPredictionInput) (h : 0 < i.milesPerYear) :
    0 < depthLossPerMonth i := by
  unfold depthLossPerMonth
  exact mul_pos (by positivity) (adjustedWearRate_pos i)

/-- Core antitonicity: dividing by a larger positive denominator can only
lower the rounded, zero-floored month count. -/
theorem round_max_div_antitone {d L L' : ℚ} (hL : 0 < L) (hLL : L ≤ L') :
    round (max 0 (d / L')) ≤ round (max 0 (d / L)) := by
  rcases le_or_lt d 0 with hd | hd
  · have h1 : d / L' ≤ 0 := div_nonpos_iff.2 (Or.inr ⟨hd, (hL.trans_le hLL).le⟩)
    have h2 : d / L ≤ 0 := div_nonpos_iff.2 (Or.inr ⟨hd, hL.le⟩)
    rw [max_eq_left h1, max_eq_left h2]
  · exact round_mono_rat (max_le_max (le_refl 0)
      (div_le_div_of_nonneg_left hd.le hL hLL))

/-- `remainingMonths` is weakly antitone in `milesPerYear` on positive mileage. -/
theorem remainingMonths_antitone_milesPerYear (i : WearPredictionInput) (mpy' : ℚ)
    (h0 : 0 < i.milesPerYear) (hle : i.milesPerYear ≤ mpy') :
    (predictWearTimeline { i with milesPerYear := mpy' }).remainingMonths ≤
      (predictWearTimeline i).remainingMonths := by
  have hLi : 0 < depthLossPerMonth i := depthLossPerMonth_pos i h0
  have hLle : depthLossPerMonth i ≤ depthLossPerMonth { i with milesPerYear := mpy' } := by
    unfold depthLossPerMonth
    have hA : adjustedWearRate { i with milesPerYear := mpy' } = adjustedWearRate i := rfl
    rw [hA]
    have hA0 := (adjustedWearRate_pos i).le
    gcongr
  have hLj : 0 < depthLossPerMonth { i with milesPerYear := mpy' } := hLi.trans_le hLle
  rw [predictWearTimeline_remainingMonths, predictWearTimeline_remainingMonths,
    if_neg (not_le.2 hLi), if_neg (not_le.2 hLj)]
  have hcd : currentDepthOf ({ i with milesPerYear := mpy' } : WearPredictionInput) =
      currentDepthOf i := rfl
  rw [hcd]
  exact round_max_div_antitone hLi hLle

/-- `remainingMonths` never increases when `rotation` switches from
`"normal"` to `"skip-rotations"` (modifier 1.15). -/
theorem remainingMonths_antitone_skipRotations (i : WearPredictionInput)
    (hrot : i.rotation = "normal") :
    (predictWearTimeline { i with rotation := "skip-rotations" }).remainingMonths ≤
      (predictWearTimeline i).remainingMonths := by
  have hA : adjustedWearRate { i with rotation := "skip-rotations" } =
      adjustedWearRate i * 1.15 := by
    unfold adjustedWearRate
    rw [hrot]
    show BASE_WEAR_RATE_PER_1000_MILES * (WEAR_MODIFIERS_climate i.climate).getD 1.0 *
        1.15 * (WEAR_MODIFIERS_driving i.drivingStyle).getD 1.0 = _
    rw [show (WEAR_MODIFIERS_rotation "normal").getD (1.0 : ℚ) = 1.0 from rfl]
    ring
  have hL : depthLossPerMonth { i with rotation := "skip-rotations" } =
      depthLossPerMonth i * 1.15 := by
    unfold depthLossPerMonth
    rw [hA]
    show i.milesPerYear / 12 / 1000 * (adjustedWearRate i * 1.15) = _
    ring
  have hcd : currentDepthOf ({ i with rotation := "skip-rotations" } : WearPredictionInput) =
      currentDepthOf i := rfl
  rw [predictWearTimeline_remainingMonths, predictWearTimeline_remainingMonths, hL, hcd]
  rcases le_or_lt (depthLossPerMonth i) 0 with hneg | hpos
  · rw [if_pos hneg, if_pos (by nlinarith)]
  · rw [if_neg (not_le.2 hpos), if_neg (not_le.2 (by nlinarith))]
    exact round_max_div_antitone hpos (by nlinarith)

/-- `remainingMonths` never increases when `drivingStyle` switches from
`"normal"` to `"aggressive"` (modifier 1.10). -/
theorem remainingMonths_antitone_aggressive (i : WearPredictionInput)
    (hdrv : i.drivingStyle = "normal") :
    (predictWearTimeline { i with drivingStyle := "aggressive" }).remainingMonths ≤
      (predictWearTimeline i).remainingMonths := by
  have hA : adjustedWearRate { i with drivingStyle := "aggressive" } =
      adjustedWearRate i * 1.10 := by
    unfold adjustedWearRate
    rw [hdrv]
    show BASE_WEAR_RATE_PER_1000_MILES * (WEAR_MODIFIERS_climate i.climate).getD 1.0 *
        (WEAR_MODIFIERS_rotation i.rotation).getD 1.0 * 1.10 = _
    rw [show (WEAR_MODIFIERS_driving "normal").getD (1.0 : ℚ) = 1.0 from rfl]
    ring
  have hL : depthLossPerMonth { i with drivingStyle := "aggressive" } =
      depthLossPerMonth i * 1.10 := by
    unfold depthLossPerMonth
    rw [hA]
    show i.milesPerYear / 12 / 1000 * (adjustedWearRate i * 1.10) = _
    ring
  have hcd : currentDepthOf ({ i with drivingStyle := "aggressive" } : WearPredictionInput) =
      currentDepthOf i := rfl
  rw [predictWearTimeline_remainingMonths, predictWearTimeline_remainingMonths, hL, hcd]
  rcases le_or_lt (depthLossPerMonth i) 0 with hneg | hpos
  · rw [if_pos hneg, if_pos (by nlinarith)]
  · rw [if_neg (not_le.2 hpos), if_neg (not_le.2 (by nlinarith))]
    exact round_max_div_antitone hpos (by nlinarith)

/-- Every weather multiplier is positive. -/
theorem WEATHER_RISK_MULTIPLIERS_pos (w : WeatherMode) : 0 < WEATHER_RISK_MULTIPLIERS w := by
  cases w <;> norm_num [WEATHER_RISK_MULTIPLIERS]

/-- `adjustRemainingMonths` is monotone in its month argument. -/
theorem adjustRemainingMonths_mono {m m' : ℤ} (w : WeatherMode) (h : m ≤ m') :
    adjustRemainingMonths m w ≤ adjustRemainingMonths m' w := by
  unfold adjustRemainingMonths
  apply max_le_max (le_refl 0)
  apply round_mono_rat
  exact div_le_div_of_nonneg_right (by exact_mod_cast h) (WEATHER_RISK_MULTIPLIERS_pos w).le

/-- Enabling `skipRotations` never increases the hook's `totalMonths`
(for the nonnegative `remainingMonths` every prediction produces). -/
theorem totalMonths_antitone_skipRotations (wp : WearPrediction) (agg : Bool)
    (w : WeatherMode) (hb : 0 ≤ wp.remainingMonths) :
    timeTravelTotalMonths wp true agg w ≤ timeTravelTotalMonths wp false agg w := by
  have hb' : (0 : ℚ) ≤ (wp.remainingMonths : ℚ) := by exact_mod_cast hb
  unfold timeTravelTotalMonths
  apply adjustRemainingMonths_mono
  cases agg
  · simp only [Bool.true_or, Bool.false_or, if_true, if_false, Bool.false_eq_true]
    calc round ((wp.remainingMonths : ℚ) / (1.15 * 1))
        ≤ round ((wp.remainingMonths : ℚ)) := by
          apply round_mono_rat
          exact div_le_self hb' (by norm_num)
      _ = wp.remainingMonths := round_intCast _
  · simp only [Bool.true_or, Bool.false_or, if_true, if_false]
    apply round_mono_rat
    exact div_le_div_of_nonneg_left hb' (by norm_num) (by norm_num)

/-- Enabling `aggressiveDriving` never increases the hook's `totalMonths`. -/
theorem totalMonths_antitone_aggressive (wp : WearPrediction) (skip : Bool)
    (w : WeatherMode) (hb : 0 ≤ wp.remainingMonths) :
    timeTravelTotalMonths wp skip true w ≤ timeTravelTotalMonths wp skip false w := by
  have hb' : (0 : ℚ) ≤ (wp.remainingMonths : ℚ) := by exact_mod_cast hb
  unfold timeTravelTotalMonths
  apply adjustRemainingMonths_mono
  cases skip
  · simp only [Bool.or_true, Bool.or_false, if_true, if_false, Bool.false_eq_true]
    calc round ((wp.remainingMonths : ℚ) / (1 * 1.10))
        ≤ round ((wp.remainingMonths : ℚ)) := by
          apply round_mono_rat
          exact div_le_self hb' (by norm_num)
      _ = wp.remainingMonths := round_intCast _
  · simp only [Bool.or_true, Bool.or_false, if_true, if_false]
    apply round_mono_rat
    exact div_le_div_of_nonneg_left hb' (by norm_num) (by norm_num)

/-- **C3 counterexample**: the claim fails as stated.  (1) Strictness fails:
raising `milesPerYear` from 12000 to 12001 leaves the rounded
`remainingMonths` unchanged at 50.  (2) Even weak monotonicity fails across
the degenerate sentinel: raising `milesPerYear` from 0 to 1 *increases*
`remainingMonths` from the sentinel 120 to 600000. -/
theorem C3_strict_monotonicity_counterexample :
    (predictWearTimeline ⟨⟨8, 10⟩, 12001, "neutral", "normal", "normal"⟩).remainingMonths =
      (predictWearTimeline ⟨⟨8, 10⟩, 12000, "neutral", "normal", "normal"⟩).remainingMonths ∧
    (predictWearTimeline ⟨⟨8, 10⟩, 0, "neutral", "normal", "normal"⟩).remainingMonths <
      (predictWearTimeline ⟨⟨8, 10⟩, 1, "neutral", "normal", "normal"⟩).remainingMonths := by
  have e1 : depthLossPerMonth ⟨⟨8, 10⟩, 12001, "neutral", "normal", "normal"⟩ =
      (12001 : ℚ) / 12 / 1000 * (0.14 * 1.0 * 1.0 * 1.0) := rfl
  have e2 : depthLossPerMonth ⟨⟨8, 10⟩, 12000, "neutral", "normal", "normal"⟩ =
      (12000 : ℚ) / 12 / 1000 * (0.14 * 1.0 * 1.0 * 1.0) := rfl
  have e3 : depthLossPerMonth ⟨⟨8, 10⟩, 0, "neutral", "normal", "normal"⟩ =
      (0 : ℚ) / 12 / 1000 * (0.14 * 1.0 * 1.0 * 1.0) := rfl
  have e4 : depthLossPerMonth ⟨⟨8, 10⟩, 1, "neutral", "normal", "normal"⟩ =
      (1 : ℚ) / 12 / 1000 * (0.14 * 1.0 * 1.0 * 1.0) := rfl
  constructor
  · rw [predictWearTimeline_remainingMonths, predictWearTimeline_remainingMonths,
      e1, e2, if_neg (by norm_num), if_neg (by norm_num),
      show currentDepthOf ⟨⟨8, 10⟩, 12001, "neutral", "normal", "normal"⟩ =
        ((8 : ℚ) + 10) / 2 from rfl,
      show currentDepthOf ⟨⟨8, 10⟩, 12000, "neutral", "normal", "normal"⟩ =
        ((8 : ℚ) + 10) / 2 from rfl,
      show ((8 : ℚ) + 10) / 2 - LEGAL_MINIMUM_DEPTH = 7 from by
        norm_num [LEGAL_MINIMUM_DEPTH],
      show (7 : ℚ) / ((12001 : ℚ) / 12 / 1000 * (0.14 * 1.0 * 1.0 * 1.0)) =
        4200000 / 84007 from by norm_num,
      show (7 : ℚ) / ((12000 : ℚ) / 12 / 1000 * (0.14 * 1.0 * 1.0 * 1.0)) = 50 from by
        norm_num,
      max_eq_right (by norm_num : (0 : ℚ) ≤ 4200000 / 84007),
      max_eq_right (by norm_num : (0 : ℚ) ≤ 50),
      show round ((4200000 : ℚ) / 84007) = 50 from by
        norm_num [round_eq, Int.floor_eq_iff],
      show round ((50 : ℚ)) = 50 from by norm_num [round_eq]]
  · rw [predictWearTimeline_remainingMonths, predictWearTimeline_remainingMonths,
      e3, e4, if_pos (by norm_num), if_neg (by norm_num),
      show currentDepthOf ⟨⟨8, 10⟩, 1, "neutral", "normal", "normal"⟩ =
        ((8 : ℚ) + 10) / 2 from rfl,
      show ((8 : ℚ) + 10) / 2 - LEGAL_MINIMUM_DEPTH = 7 from by
        norm_num [LEGAL_MINIMUM_DEPTH],
      show (7 : ℚ) / ((1 : ℚ) / 12 / 1000 * (0.14 * 1.0 * 1.0 * 1.0)) = 600000 from by
        norm_num,
      max_eq_right (by norm_num : (0 : ℚ) ≤ 600000),
      show round ((600000 : ℚ)) = 600000 from by norm_num [round_eq]]
    norm_num

/-- **C3 amended**: with positive mileage, increasing `milesPerYear` never
increases `remainingMonths` (weakly antitone; strictness is lost to
`Math.round` and to the `max 0` floors); enabling `skip-rotations` or
`aggressive` driving never increases `remainingMonths`; and in the
Time-Travel hook, enabling either toggle never increases `totalMonths`
(given the nonnegative `remainingMonths` every prediction produces). -/
theorem C3_monotonicity_amended :
    (∀ (i : WearPredictionInput) (mpy' : ℚ), 0 < i.milesPerYear → i.milesPerYear ≤ mpy' →
      (predictWearTimeline { i with milesPerYear := mpy' }).remainingMonths ≤
        (predictWearTimeline i).remainingMonths) ∧
    (∀ i : WearPredictionInput, i.rotation = "normal" →
      (predictWearTimeline { i with rotation := "skip-rotations" }).remainingMonths ≤
        (predictWearTimeline i).remainingMonths) ∧
    (∀ i : WearPredictionInput, i.drivingStyle = "normal" →
      (predictWearTimeline { i with drivingStyle := "aggressive" }).remainingMonths ≤
        (predictWearTimeline i).remainingMonths) ∧
    (∀ (wp : WearPrediction) (agg : Bool) (w : WeatherMode), 0 ≤ wp.remainingMonths →
      timeTravelTotalMonths wp true agg w ≤ timeTravelTotalMonths wp false agg w) ∧
    (∀ (wp : WearPrediction) (skip : Bool) (w : WeatherMode), 0 ≤ wp.remainingMonths →
      timeTravelTotalMonths wp skip true w ≤ timeTravelTotalMonths wp skip false w) :=
  ⟨remainingMonths_antitone_milesPerYear, remainingMonths_antitone_skipRotations,
   remainingMonths_antitone_aggressive, totalMonths_antitone_skipRotations,
   totalMonths_antitone_aggressive⟩

/-- Witness for C3 (amended) at concrete inputs. -/
theorem C3_monotonicity_amended_witness :
    (0 : ℚ) < 12000 ∧ (12000 : ℚ) ≤ 20000 ∧ (0 : ℤ) ≤ 36 ∧
    (predictWearTimeline ⟨⟨6, 8⟩, 20000, "neutral", "normal", "normal"⟩).remainingMonths ≤
      (predictWearTimeline ⟨⟨6, 8⟩, 12000, "neutral", "normal", "normal"⟩).remainingMonths ∧
    (predictWearTimeline ⟨⟨6, 8⟩, 12000, "neutral", "skip-rotations", "normal"⟩).remainingMonths ≤
      (predictWearTimeline ⟨⟨6, 8⟩, 12000, "neutral", "normal", "normal"⟩).remainingMonths ∧
    (predictWearTimeline ⟨⟨6, 8⟩, 12000, "neutral", "normal", "aggressive"⟩).remainingMonths ≤
      (predictWearTimeline ⟨⟨6, 8⟩, 12000, "neutral", "normal", "normal"⟩).remainingMonths ∧
    timeTravelTotalMonths ⟨7, 0.14, 36, 36, 36, 36, 0.175⟩ true false .dry ≤
      timeTravelTotalMonths ⟨7, 0.14, 36, 36, 36, 36, 0.175⟩ false false .dry ∧
    timeTravelTotalMonths ⟨7, 0.14, 36, 36, 36, 36, 0.175⟩ false true .dry ≤
      timeTravelTotalMonths ⟨7, 0.14, 36, 36, 36, 36, 0.175⟩ false false .dry :=
  ⟨by norm_num, by norm_num, by norm_num,
   C3_monotonicity_amended.1 ⟨⟨6, 8⟩, 12000, "neutral", "normal", "normal"⟩ 20000
     (by norm_num) (by norm_num),
   C3_monotonicity_amended.2.1 ⟨⟨6, 8⟩, 12000, "neutral", "normal", "normal"⟩ rfl,
   C3_monotonicity_amended.2.2.1 ⟨⟨6, 8⟩, 12000, "neutral", "normal", "normal"⟩ rfl,
   C3_monotonicity_amended.2.2.2.1 ⟨7, 0.14, 36, 36, 36, 36, 0.175⟩ false .dry (by decide),
   C3_monotonicity_amended.2.2.2.2 ⟨7, 0.14, 36, 36, 36, 36, 0.175⟩ false .dry (by decide)⟩

-- ── JavaScript number semantics for the Image Quality Assessor ──────

/-- ECMAScript `number` values reachable in `assessImageQuality`: a finite
value, the two infinities, or `NaN`.  (The source divides by `totalPixels`,
which is zero for a zero-area buffer, so the special values are reachable.) -/
inductive JsNum where
  | num (q : ℚ)
  | posInf
  | negInf
  | nan
deriving DecidableEq, Repr

/-- IEEE negation. -/
def jsNeg : JsNum → JsNum
  | .num a => .num (-a)
  | .posInf => .negInf
  | .negInf => .posInf
  | .nan => .nan

/-- IEEE addition (no distinct `-0` in the rational embedding). -/
def jsAdd : JsNum → JsNum → JsNum
  | .nan, _ => .nan
  | _, .nan => .nan
  | .num a, .num b => .num (a + b)
  | .posInf, .negInf => .nan
  | .negInf, .posInf => .nan
  | .posInf, _ => .posInf
  | _, .posInf => .posInf
  | .negInf, _ => .negInf
  | _, .negInf => .negInf

/-- IEEE subtraction: `a - b = a + (-b)`. -/
def jsSub (a b : JsNum) : JsNum := jsAdd a (jsNeg b)

/-- IEEE multiplication. -/
def jsMul : JsNum → JsNum → JsNum
  | .nan, _ => .nan
  | _, .nan => .nan
  | .num a, .num b => .num (a * b)
  | .num a, .posInf => if a = 0 then .nan else if 0 < a then .posInf else .negInf
  | .posInf, .num b => if b = 0 then .nan else if 0 < b then .posInf else .negInf
  | .num a, .negInf => if a = 0 then .nan else if 0 < a then .negInf else .posInf
  | .negInf, .num b => if b = 0 then .nan else if 0 < b then .negInf else .posInf
  | .posInf, .posInf => .posInf
  | .posInf, .negInf => .negInf
  | .negInf, .posInf => .negInf
  | .negInf, .negInf => .posInf

/-- IEEE division: `0/0 = NaN`, `x/0 = ±∞` for `x ≠ 0`, `x/±∞ = 0`. -/
def jsDiv : JsNum → JsNum → JsNum
  | .nan, _ => .nan
  | _, .nan => .nan
  | .num a, .num b =>
      if b = 0 then (if a = 0 then .nan else if 0 < a then .posInf else .negInf)
      else .num (a / b)
  | .num _, .posInf => .num 0
  | .num _, .negInf => .num 0
  | .posInf, .num b => if 0 ≤ b then .posInf else .negInf
  | .negInf, .num b => if 0 ≤ b then .negInf else .posInf
  | .posInf, _ => .nan
  | .negInf, _ => .nan

/-- `Math.abs`. -/
def jsAbs : JsNum → JsNum
  | .num a => .num (if a < 0 then -a else a)
  | .posInf => .posInf
  | .negInf => .posInf
  | .nan => .nan

/-- ECMAScript `<` (false whenever `NaN` is involved). -/
def jsLt : JsNum → JsNum → Bool
  | .nan, _ => false
  | _, .nan => false
  | .num a, .num b => decide (a < b)
  | .num _, .posInf => true
  | .posInf, .num _ => false
  | .negInf, .num _ => true
  | .num _, .negInf => false
  | .posInf, .posInf => false
  | .negInf, .negInf => false
  | .negInf, .posInf => true
  | .posInf, .negInf => false

/-- ECMAScript `>=` (false whenever `NaN` is involved). -/
def jsGe : JsNum → JsNum → Bool
  | .nan, _ => false
  | _, .nan => false
  | .num a, .num b => decide (b ≤ a)
  | .posInf, _ => true
  | _, .posInf => false
  | _, .negInf => true
  | .negInf, _ => false

/-- `Math.min` (NaN-propagating). -/
def jsMin : JsNum → JsNum → JsNum
  | .nan, _ => .nan
  | _, .nan => .nan
  | .num a, .num b => .num (min a b)
  | .posInf, x => x
  | x, .posInf => x
  | .negInf, _ => .negInf
  | _, .negInf => .negInf

-- ── Image Quality Assessor (src/lib/treadAnalysis assessImageQuality) ─

/-- `ImageData`: RGBA byte stream plus dimensions (`data.length = 4·w·h`
for a well-formed buffer). -/
structure ImageData where
  data : List ℕ
  width : ℕ
  height : ℕ
deriving DecidableEq, Repr

/-- `ImageQuality` result record.  The numeric fields are `JsNum` because
the source can produce `NaN` on degenerate buffers. -/
structure ImageQuality where
  blur : JsNum
  brightness : JsNum
  contrast : JsNum
  overall : JsNum
  acceptable : Bool
deriving DecidableEq, Repr

/-- `IMAGE_QUALITY_MIN = 0.35`. -/
def IMAGE_QUALITY_MIN : ℚ := 0.35

/-- Per-pixel BT.601 luminances of the RGBA stream, one per 4-byte chunk
(the `for (i = 0; i < data.length; i += 4)` loops). -/
def lumList : List ℕ → List ℚ
  | r :: g :: b :: _ :: rest =>
      ((r : ℚ) * 0.299 + (g : ℚ) * 0.587 + (b : ℚ) * 0.114) :: lumList rest
  | [r, g, b] => [(r : ℚ) * 0.299 + (g : ℚ) * 0.587 + (b : ℚ) * 0.114]
  | _ => []

/-- Luminance sampled at pixel `(x, y)` (`data[(y*width+x)*4 + c]`). -/
def lumAt (img : ImageData) (x y : ℕ) : ℚ :=
  let idx := (y * img.width + x) * 4
  (img.data.getD idx 0 : ℚ) * 0.299 + (img.data.getD (idx + 1) 0 : ℚ) * 0.587 +
    (img.data.getD (idx + 2) 0 : ℚ) * 0.114

/-- Index set of `for (v = start; v < bound; v += step)`, in ascending order. -/
def strideList (start step bound : ℕ) : List ℕ :=
  (List.range bound).filter (fun v => decide (start ≤ v ∧ (v - start) % step = 0))

/-- `calculateLaplacianVariance`: variance of the 4-neighbour Laplacian on a
stride-3 grid; returns 0 when no samples exist. -/
def calculateLaplacianVariance (img : ImageData) : ℚ :=
  let ys := strideList 1 3 (img.height - 1)
  let xs := strideList 1 3 (img.width - 1)
  let pts := ys.flatMap (fun y => xs.map (fun x => (x, y)))
  let stats := pts.foldl (fun (acc : ℚ × ℚ × ℕ) p =>
    let lum := lumAt img p.1 p.2
    let lumUp := lumAt img p.1 (p.2 - 1)
    let lumDown := lumAt img p.1 (p.2 + 1)
    let lumLeft := lumAt img (p.1 - 1) p.2
    let lumRight := lumAt img (p.1 + 1) p.2
    let lap := lumUp + lumDown + lumLeft + lumRight - 4 * lum
    (acc.1 + lap, acc.2.1 + lap * lap, acc.2.2 + 1)) (0, 0, 0)
  if stats.2.2 = 0 then 0
  else stats.2.1 / (stats.2.2 : ℚ) - (stats.1 / (stats.2.2 : ℚ)) * (stats.1 / (stats.2.2 : ℚ))

/-- `assessImageQuality(imageData)`, parameterised over `Math.sqrt` (a fixed
deterministic function whose only use is on `sumSqDiff / totalPixels`).
The divisions by `totalPixels` are JavaScript divisions (`JsNum`), because
`totalPixels = 0` for a zero-area buffer. -/
def assessImageQuality (sqrtO : JsNum → JsNum) (img : ImageData) : ImageQuality :=
  let totalPixels : ℚ := ((img.width * img.height : ℕ) : ℚ)
  let lums := lumList img.data
  let totalLum : ℚ := lums.sum
  let avgBrightness := jsDiv (jsDiv (.num totalLum) (.num totalPixels)) (.num 255)
  let brightnessScore :=
    if jsLt (.num 0.15) avgBrightness && jsLt avgBrightness (.num 0.85)
    then jsSub (.num 1.0) (jsMul (jsAbs (jsSub avgBrightness (.num 0.5))) (.num 1.5))
    else .num 0.3
  let avgLum := jsDiv (.num totalLum) (.num totalPixels)
  let sumSqDiff := lums.foldl
    (fun acc lum => jsAdd acc (jsMul (jsSub (.num lum) avgLum) (jsSub (.num lum) avgLum)))
    (.num 0)
  let stdDev := sqrtO (jsDiv sumSqDiff (.num totalPixels))
  let contrastScore := jsMin (.num 1.0) (jsDiv stdDev (.num 60))
  let blurVar := calculateLaplacianVariance img
  let sharpnessScore := jsMin (.num 1.0) (jsDiv (.num blurVar) (.num 500))
  let overall := jsAdd (jsAdd (jsMul brightnessScore (.num 0.25))
    (jsMul contrastScore (.num 0.35))) (jsMul sharpnessScore (.num 0.40))
  let acceptable := jsGe overall (.num IMAGE_QUALITY_MIN)
  { blur := sharpnessScore,
    brightness := brightnessScore,
    contrast := contrastScore,
    overall := overall,
    acceptable := acceptable }

-- ── Claim C6: zero-area buffers ─────────────────────────────────────

/-- Flat-mapping the constant empty list gives the empty list. -/
theorem flatMap_nil_fun {α β : Type} (l : List α) :
    l.flatMap (fun _ => ([] : List β)) = [] := by
  induction l with
  | nil => rfl
  | cons a t ih => simp [ih]

/-- A zero-area buffer yields no Laplacian samples, so the variance is 0. -/
theorem calculateLaplacianVariance_zero_area (data : List ℕ) (w h : ℕ)
    (hwh : w * h = 0) :
    calculateLaplacianVariance ⟨data, w, h⟩ = 0 := by
  rcases Nat.mul_eq_zero.1 hwh with hw | hh
  · subst hw
    have hxs : strideList 1 3 ((⟨data, 0, h⟩ : ImageData).width - 1) = [] := rfl
    unfold calculateLaplacianVariance
    rw [hxs]
    simp [flatMap_nil_fun]
  · subst hh
    have hys : strideList 1 3 ((⟨data, w, 0⟩ : ImageData).height - 1) = [] := rfl
    unfold calculateLaplacianVariance
    rw [hys]
    simp

/-- On a zero-area buffer `assessImageQuality` runs to completion and
returns a value: `brightness = 0.3` (the out-of-range fallback), `blur = 0`,
`contrast = overall = NaN`, `acceptable = false`.  There is no failure path. -/
theorem assessImageQuality_zero_area (sqrtO : JsNum → JsNum) (hs : sqrtO .nan = .nan)
    (w h : ℕ) (hwh : w * h = 0) :
    assessImageQuality sqrtO ⟨[], w, h⟩ =
      { blur := .num 0, brightness := .num 0.3, contrast := .nan, overall := .nan,
        acceptable := false } := by
  have hlap : calculateLaplacianVariance ⟨[], w, h⟩ = 0 :=
    calculateLaplacianVariance_zero_area [] w h hwh
  have hmin : min (1.0 : ℚ) 0 = 0 := min_eq_right (by norm_num)
  unfold assessImageQuality
  rw [show ((⟨[], w, h⟩ : ImageData).width * (⟨[], w, h⟩ : ImageData).height) = w * h
      from rfl, hwh, hlap]
  simp [lumList, jsDiv, jsAdd, jsMul, jsSub, jsNeg, jsAbs, jsLt, jsGe, jsMin, hs, hmin]

/-- **C6 counterexample**: on the zero-area buffer `⟨[], 0, 0⟩` the assessor
does not fail fast — it returns an `ImageQuality` value (with
NaN-contaminated `contrast`/`overall` and `acceptable = false`). -/
theorem C6_invalid_image_counterexample :
    assessImageQuality (fun x => x) ⟨[], 0, 0⟩ =
      { blur := .num 0, brightness := .num 0.3, contrast := .nan, overall := .nan,
        acceptable := false } :=
  assessImageQuality_zero_area (fun x => x) rfl 0 0 rfl

/-- **C6 amended**: `assessImageQuality` has no zero-area guard.  On any
zero-area buffer it returns the `ImageQuality` value
`{blur 0, brightness 0.3, contrast NaN, overall NaN, acceptable false}`
instead of failing with an `InvalidImage` condition; the guard is a
requirement the spec places on reimplementers, not code behaviour. -/
theorem C6_zero_area_returns_value (sqrtO : JsNum → JsNum) (hs : sqrtO .nan = .nan)
    (w h : ℕ) (hwh : w * h = 0) :
    assessImageQuality sqrtO ⟨[], w, h⟩ =
      { blur := .num 0, brightness := .num 0.3, contrast := .nan, overall := .nan,
        acceptable := false } :=
  assessImageQuality_zero_area sqrtO hs w h hwh

/-- Witness for C6 (amended) with a width-zero, height-three buffer. -/
theorem C6_zero_area_returns_value_witness :
    ((fun _ : JsNum => JsNum.nan) .nan = .nan) ∧ (0 * 3 = 0) ∧
    assessImageQuality (fun _ => .nan) ⟨[], 0, 3⟩ =
      { blur := .num 0, brightness := .num 0.3, contrast := .nan, overall := .nan,
        acceptable := false } :=
  ⟨rfl, rfl, C6_zero_area_returns_value (fun _ => .nan) rfl 0 3 rfl⟩

-- ── Procedural Deterioration Pipeline (weatherRisk.ts, enhanced) ─────

/-- The fixed deterministic `Math` functions the pipeline evaluates
(`sqrt`, `cos`, `sin`, `atan2`, `exp`, and the constant `PI`).  Each is a
pure function of its argument in JavaScript; the embedding abstracts their
values but keeps them fixed, which is all the determinism claim needs. -/
structure MathOracle where
  sqrt : ℚ → ℚ
  cos : ℚ → ℚ
  sin : ℚ → ℚ
  atan2 : ℚ → ℚ → ℚ
  exp : ℚ → ℚ
  pi : ℚ

/-- `DeteriorationOptions` — `{t, unevenWear, width, height}`. -/
structure DeteriorationOptions where
  t : ℚ
  unevenWear : Bool
  width : ℕ
  height : ℕ
deriving DecidableEq, Repr

/-- Reading a `Uint8ClampedArray` entry as a JavaScript number. -/
def pget (px : Array ℕ) (i : ℕ) : ℚ := (px.getD i 0 : ℚ)

/-- Storing an integer (a `Math.round` result) into a `Uint8ClampedArray`:
clamp to `[0, 255]`. -/
def clampByte (n : ℤ) : ℕ :=
  if n ≤ 0 then 0 else if 255 ≤ n then 255 else n.toNat

/-- Round half to even (the tie-breaking ECMAScript `ToUint8Clamp` uses). -/
def roundHalfEven (q : ℚ) : ℤ :=
  let f := ⌊q⌋
  let r := q - (f : ℚ)
  if r < 1 / 2 then f
  else if (1 / 2 : ℚ) < r then f + 1
  else if f % 2 = 0 then f else f + 1

/-- `ToUint8Clamp`: storing a fractional value into a `Uint8ClampedArray`
(clamp to `[0, 255]`, round half to even). -/
def u8store (q : ℚ) : ℕ :=
  if q ≤ 0 then 0 else if 255 ≤ q then 255 else (roundHalfEven q).toNat

/-- `createTreadMask(width, height, unevenWear)` as a weight function of the
pixel coordinate (the source tabulates the same values in a `Float32Array`;
the rational embedding keeps real arithmetic, `sqrt` via the oracle). -/
def createTreadMask (O : MathOracle) (width height : ℕ) (unevenWear : Bool)
    (x y : ℕ) : ℚ :=
  let centerX : ℚ := (width : ℚ) / 2
  let centerY : ℚ := (height : ℚ) / 2
  let radiusX : ℚ := (width : ℚ) * 0.35
  let radiusY : ℚ := (height : ℚ) * 0.40
  let dx := ((x : ℚ) - centerX) / radiusX
  let dy := ((y : ℚ) - centerY) / radiusY
  let dist := O.sqrt (dx * dx + dy * dy)
  let value := max 0 (1.0 - dist)
  let value := value * value * (3 - 2 * value)
  if unevenWear then
    let edgeFactor := |dx|
    if 0.5 < edgeFactor then
      min 1.0 (value + (edgeFactor - 0.5) * 1.2 * value)
    else
      min 1.0 (value + edgeFactor * 0.3 * value)
  else value

/-- `applyContrastReduction`: blend each masked pixel toward a warm
luminance-weighted gray, strength `t * 0.45`. -/
def applyContrastReduction (mask : ℕ → ℕ → ℚ) (t : ℚ) (width height : ℕ)
    (pixels : Array ℕ) : Array ℕ :=
  let strength := t * 0.45
  (List.range height).foldl (fun px y =>
    (List.range width).foldl (fun px x =>
      let idx := (y * width + x) * 4
      let m := mask x y * strength
      if m < 0.01 then px
      else
        let p0 := pget px idx
        let p1 := pget px (idx + 1)
        let p2 := pget px (idx + 2)
        let gray := p0 * 0.3 + p1 * 0.59 + p2 * 0.11
        let warmGray := gray + 2
        let px := px.setD idx (clampByte (round (p0 + (warmGray - p0) * m)))
        let px := px.setD (idx + 1) (clampByte (round (p1 + (warmGray - 1 - p1) * m)))
        px.setD (idx + 2) (clampByte (round (p2 + (warmGray - 3 - p2) * m)))) px) pixels

/-- The `for (d = -radius; d <= radius; d += 2)` offsets. -/
def offsetsList (radius : ℕ) : List ℤ :=
  (List.range (radius + 1)).map (fun i => -(radius : ℤ) + 2 * i)

/-- `applyGaussianSmoothing`: Gaussian-weighted stride-2 neighbourhood
average, weights precomputed and normalised, sampled from a snapshot of the
incoming buffer. -/
def applyGaussianSmoothing (O : MathOracle) (mask : ℕ → ℕ → ℚ) (t : ℚ)
    (width height : ℕ) (pixels : Array ℕ) : Array ℕ :=
  let strength := min 1.0 ((t - 0.12) * 1.3)
  let radius : ℕ := (⌈strength * 2⌉ + 1).toNat
  let offs := offsetsList radius
  let weightsRaw := offs.flatMap (fun dy => offs.map (fun dx =>
    let d := O.sqrt ((dx : ℚ) * dx + (dy : ℚ) * dy)
    O.exp (-(d * d) / (2 * (radius : ℚ) * (radius : ℚ)))))
  let weightSum := weightsRaw.sum
  let weights := weightsRaw.map (fun w => w / weightSum)
  let pts := offs.flatMap (fun dy => offs.map (fun dx => (dy, dx)))
  let original := pixels
  (strideList radius 1 (height - radius)).foldl (fun px y =>
    (strideList radius 1 (width - radius)).foldl (fun px x =>
      let m := mask x y * strength
      if m < 0.05 then px
      else
        let acc := (pts.zip weights).foldl (fun (acc : ℚ × ℚ × ℚ) pw =>
          let si := ((((y : ℤ) + pw.1.1) * width + ((x : ℤ) + pw.1.2)) * 4).toNat
          (acc.1 + pget original si * pw.2,
           acc.2.1 + pget original (si + 1) * pw.2,
           acc.2.2 + pget original (si + 2) * pw.2)) (0, 0, 0)
        let idx := (y * width + x) * 4
        let p0 := pget px idx
        let p1 := pget px (idx + 1)
        let p2 := pget px (idx + 2)
        let px := px.setD idx (clampByte (round (p0 + (acc.1 - p0) * m)))
        let px := px.setD (idx + 1) (clampByte (round (p1 + (acc.2.1 - p1) * m)))
        px.setD (idx + 2) (clampByte (round (p2 + (acc.2.2 - p2) * m)))) px) pixels

/-- The eight neighbour offsets `(dy, dx)` of the groove-erosion variance
scan, in source loop order (the `(0,0)` centre is skipped). -/
def neighborOffsets : List (ℤ × ℤ) :=
  [(-1, -1), (-1, 0), (-1, 1), (0, -1), (0, 1), (1, -1), (1, 0), (1, 1)]

/-- `applyGrooveErosion`: lift dark (groove) or high-variance (edge) pixels,
variance detected against a snapshot of the incoming buffer. -/
def applyGrooveErosion (mask : ℕ → ℕ → ℚ) (t : ℚ) (width height : ℕ)
    (pixels : Array ℕ) : Array ℕ :=
  let strength := min 1.0 ((t - 0.18) * 1.4)
  let original := pixels
  (strideList 1 1 (height - 1)).foldl (fun px y =>
    (strideList 1 1 (width - 1)).foldl (fun px x =>
      let idx := (y * width + x) * 4
      let m := mask x y * strength
      if m < 0.05 then px
      else
        let lum := (pget px idx + pget px (idx + 1) + pget px (idx + 2)) / 3
        let sumDiff := neighborOffsets.foldl (fun acc o =>
          let ni := ((((y : ℤ) + o.1) * width + ((x : ℤ) + o.2)) * 4).toNat
          let nLum := (pget original ni + pget original (ni + 1) + pget original (ni + 2)) / 3
          acc + |lum - nLum|) 0
        let avgDiff := sumDiff / 8
        if lum < 110 ∨ 15 < avgDiff then
          let isGroove := lum < 100
          let isEdge := 15 < avgDiff
          let liftFactor : ℚ := if isGroove then 0.4 else if isEdge then 0.2 else 0
          let lift := m * (130 - min lum 130) * liftFactor
          let px := px.setD idx (u8store (min 255 (pget px idx + lift)))
          let px := px.setD (idx + 1) (u8store (min 255 (pget px (idx + 1) + lift)))
          px.setD (idx + 2) (u8store (min 255 (pget px (idx + 2) + lift)))
        else px) px) pixels

/-- `applyEdgeSoftening`: blend high-gradient pixels toward the 3-sample
local average of a snapshot, strength scaled by the gradient magnitude. -/
def applyEdgeSoftening (mask : ℕ → ℕ → ℚ) (t : ℚ) (width height : ℕ)
    (pixels : Array ℕ) : Array ℕ :=
  let strength := min 1.0 ((t - 0.25) * 1.5)
  let original := pixels
  (strideList 1 1 (height - 1)).foldl (fun px y =>
    (strideList 1 1 (width - 1)).foldl (fun px x =>
      let m := mask x y * strength
      if m < 0.08 then px
      else
        let idx := (y * width + x) * 4
        let lum := (pget original idx + pget original (idx + 1) + pget original (idx + 2)) / 3
        let rightIdx := (y * width + (x + 1)) * 4
        let belowIdx := ((y + 1) * width + x) * 4
        let rightLum := (pget original rightIdx + pget original (rightIdx + 1) +
          pget original (rightIdx + 2)) / 3
        let belowLum := (pget original belowIdx + pget original (belowIdx + 1) +
          pget original (belowIdx + 2)) / 3
        let gradient := |lum - rightLum| + |lum - belowLum|
        if 10 < gradient then
          let blendStrength := m * min 1 (gradient / 50) * 0.3
          let avgR := (pget original idx + pget original rightIdx + pget original belowIdx) / 3
          let avgG := (pget original (idx + 1) + pget original (rightIdx + 1) +
            pget original (belowIdx + 1)) / 3
          let avgB := (pget original (idx + 2) + pget original (rightIdx + 2) +
            pget original (belowIdx + 2)) / 3
          let p0 := pget px idx
          let p1 := pget px (idx + 1)
          let p2 := pget px (idx + 2)
          let px := px.setD idx (clampByte (round (p0 + (avgR - p0) * blendStrength)))
          let px := px.setD (idx + 1) (clampByte (round (p1 + (avgG - p1) * blendStrength)))
          px.setD (idx + 2) (clampByte (round (p2 + (avgB - p2) * blendStrength)))
        else px) px) pixels

/-- Round a nonnegative integer to 53 significant bits, ties to even — the
rounding IEEE-754 double arithmetic applies to the exact products and sums
the micro-crack LCG update computes (`rng * 1103515245` can exceed `2^53`). -/
def fl53 (n : ℕ) : ℕ :=
  if n < 2 ^ 53 then n
  else
    let L := Nat.log2 n + 1
    let k := L - 53
    let q := n / 2 ^ k
    let r := n % 2 ^ k
    let half := 2 ^ (k - 1)
    if half < r ∨ (r = half ∧ q % 2 = 1) then (q + 1) * 2 ^ k else q * 2 ^ k

/-- One step of the crack generator:
`rng = (rng * 1103515245 + 12345) & 0x7fffffff` in double arithmetic
(`& 0x7fffffff` keeps the low 31 bits). -/
def lcgNext (rng : ℕ) : ℕ :=
  fl53 (fl53 (rng * 1103515245) + 12345) % 2 ^ 31

/-- `nextRand()`: advance the LCG state and return `rng / 0x7fffffff`. -/
def nextRand (rng : ℕ) : ℚ × ℕ :=
  let rng' := lcgNext rng
  ((rng' : ℚ) / 0x7fffffff, rng')

/-- The fixed micro-crack seed (`const seed = 42` in `applyMicroCracks`). -/
def MICRO_CRACK_SEED : ℕ := 42

/-- The inner `for (s = 0; s < length; s++)` loop of a single crack: walk
the line, `break` on the first out-of-bounds point, darken the three
channels by a per-step pseudo-random amount.  First argument of the
recursion is the remaining step count, second the current `s`. -/
def drawCrack (width height : ℕ) (x y : ℕ) (dx dy m : ℚ) :
    ℕ → ℕ → Array ℕ → ℕ → Array ℕ × ℕ
  | 0, _, px, rng => (px, rng)
  | n + 1, s, px, rng =>
      let cx := round ((x : ℚ) + dx * s)
      let cy := round ((y : ℚ) + dy * s)
      if cx < 0 ∨ (width : ℤ) ≤ cx ∨ cy < 0 ∨ (height : ℤ) ≤ cy then (px, rng)
      else
        let res := nextRand rng
        let darken := m * (35 + res.1 * 15)
        let idx := ((cy * width + cx) * 4).toNat
        let px := px.setD idx (u8store (max 0 (pget px idx - darken)))
        let px := px.setD (idx + 1) (u8store (max 0 (pget px (idx + 1) - darken)))
        let px := px.setD (idx + 2) (u8store (max 0 (pget px (idx + 2) - darken)))
        drawCrack width height x y dx dy m n (s + 1) px res.2

/-- `applyMicroCracks` with the seed exposed as a parameter: a stride-2 scan
threading the LCG state; each sampled cell draws a short dark line with
probability `0.035 * strength`, angle following the local gradient when
strong, else pseudo-random. -/
def applyMicroCracksSeeded (O : MathOracle) (seed : ℕ) (mask : ℕ → ℕ → ℚ)
    (t : ℚ) (width height : ℕ) (pixels : Array ℕ) : Array ℕ :=
  let strength := min 1.0 ((t - 0.55) * 2.2)
  let res := (strideList 0 2 height).foldl (fun (acc : Array ℕ × ℕ) y =>
    (strideList 0 2 width).foldl (fun (acc : Array ℕ × ℕ) x =>
      let px := acc.1
      let rng := acc.2
      let m := mask x y * strength
      if m < 0.1 then acc
      else
        let res1 := nextRand rng
        if res1.1 < 0.035 * strength then
          let res2 := nextRand res1.2
          let len := (⌊res2.1 * 5⌋).toNat + 2
          let localLum : ℚ :=
            if 0 < y ∧ 0 < x then
              pget px (((y - 1) * width + x) * 4) - pget px ((y * width + (x - 1)) * 4)
            else 0
          let ba :=
            if 20 < |localLum| then (O.atan2 localLum 30, res2.2)
            else
              let res3 := nextRand res2.2
              (res3.1 * O.pi, res3.2)
          let res4 := nextRand ba.2
          let angle := ba.1 + (res4.1 - 0.5) * 0.5
          let dx := O.cos angle
          let dy := O.sin angle
          drawCrack width height x y dx dy m len 0 px res4.2
        else (px, res1.2)) acc) (pixels, seed)
  res.1

/-- `applyMicroCracks` as the source calls it: seed fixed at 42. -/
def applyMicroCracks (O : MathOracle) (mask : ℕ → ℕ → ℚ) (t : ℚ)
    (width height : ℕ) (pixels : Array ℕ) : Array ℕ :=
  applyMicroCracksSeeded O MICRO_CRACK_SEED mask t width height pixels

/-- The pixel-buffer portion of `applyDeterioration` (everything between
`getImageData` and `putImageData`): the `t ≤ 0.01` no-op guard, then the
mask-weighted passes gated by increasing `t` thresholds.  The final
`applyAgingOverlay` is canvas compositing (two analytic alpha fills and a
radial gradient), not a pixel-buffer transform, and takes no random input. -/
def deteriorationPixels (O : MathOracle) (pixels : Array ℕ)
    (opts : DeteriorationOptions) : Array ℕ :=
  if opts.t ≤ 0.01 then pixels
  else
    let mask := createTreadMask O opts.width opts.height opts.unevenWear
    let px := applyContrastReduction mask opts.t opts.width opts.height pixels
    let px := if 0.12 < opts.t then
      applyGaussianSmoothing O mask opts.t opts.width opts.height px else px
    let px := if 0.18 < opts.t then
      applyGrooveErosion mask opts.t opts.width opts.height px else px
    let px := if 0.25 < opts.t then
      applyEdgeSoftening mask opts.t opts.width opts.height px else px
    let px := if 0.55 < opts.t then
      applyMicroCracks O mask opts.t opts.width opts.height px else px
    px

-- ── Claim C5: deterioration determinism ─────────────────────────────

/-- **C5**: the deterioration pipeline is deterministic — two invocations on
equal source buffers with equal `(t, unevenWear, width, height)` (and the
same fixed `Math` functions) produce byte-identical output buffers, and the
micro-crack pass uses the deterministic LCG seeded with the constant 42.
In the embedding the pipeline is a pure function threading the explicit LCG
state from `MICRO_CRACK_SEED`, so determinism is congruence; the content is
that the embedding faithfully shows the code has no other source of
randomness or hidden state. -/
theorem C5_deterioration_deterministic (O : MathOracle)
    (pixels pixels' : Array ℕ) (opts opts' : DeteriorationOptions)
    (hp : pixels = pixels') (ho : opts = opts') :
    deteriorationPixels O pixels opts = deteriorationPixels O pixels' opts' ∧
    MICRO_CRACK_SEED = 42 := by
  subst hp
  subst ho
  exact ⟨rfl, rfl⟩

/-- Witness for C5 at a concrete 1×1 buffer, `t = 0.7`, with a concrete
oracle. -/
theorem C5_deterioration_deterministic_witness :
    (#[120, 110, 100, 255] : Array ℕ) = #[120, 110, 100, 255] ∧
    (⟨0.7, true, 1, 1⟩ : DeteriorationOptions) = ⟨0.7, true, 1, 1⟩ ∧
    deteriorationPixels ⟨fun q => q, fun q => q, fun q => q, fun a _ => a, fun q => q, 3⟩
        #[120, 110, 100, 255] ⟨0.7, true, 1, 1⟩ =
      deteriorationPixels ⟨fun q => q, fun q => q, fun q => q, fun a _ => a, fun q => q, 3⟩
        #[120, 110, 100, 255] ⟨0.7, true, 1, 1⟩ ∧
    MICRO_CRACK_SEED = 42 :=
  ⟨rfl, rfl,
   (C5_deterioration_deterministic ⟨fun q => q, fun q => q, fun q => q, fun a _ => a,
      fun q => q, 3⟩ #[120, 110, 100, 255] #[120, 110, 100, 255]
      ⟨0.7, true, 1, 1⟩ ⟨0.7, true, 1, 1⟩ rfl rfl).1,
   (C5_deterioration_deterministic ⟨fun q => q, fun q => q, fun q => q, fun a _ => a,
      fun q => q, 3⟩ #[120, 110, 100, 255] #[120, 110, 100, 255]
      ⟨0.7, true, 1, 1⟩ ⟨0.7, true, 1, 1⟩ rfl rfl).2⟩

end TreadSight
